import Mathlib

/-!
Verification of the GitVideo backend (FastAPI service generating videos from
GitHub repositories) against its natural-language specification.

The embedding is shallow: the Python functions of
`src/backend/app/main.py`, `src/backend/app/services/repo_service.py`,
`src/backend/app/services/video_service.py` and
`src/backend/app/models/schemas.py` are translated into executable Lean
definitions.  External HTTP calls (GitHub API, OpenAI API) are modelled as
environment parameters supplying the values those calls would return; the
in-memory `video_jobs` dict is modelled as an association list with Python
dict semantics; the filesystem is modelled as the list of existing paths.

Python string primitives (`split`, `replace`, `strip`, `lower`, `in`,
`endswith`, thousands formatting) are re-implemented here on `List Char`
with structural recursion only, so that every definition evaluates inside
the kernel (`decide` / `rfl`).
-/

/-! ## Python string primitives (models of the Python `str` methods used) -/

/-- Does `pat` occur at the start of `s`?  Model of Python `str.startswith`
on character lists. -/
def list_starts : List Char → List Char → Bool
  | [], _ => true
  | _ :: _, [] => false
  | p :: ps, c :: cs => p == c && list_starts ps cs

/-- Does `pat` occur anywhere in `s`?  Model of Python `pat in s`. -/
def has_sub (pat : List Char) : List Char → Bool
  | [] => pat.isEmpty
  | c :: cs => list_starts pat (c :: cs) || has_sub pat cs

/-- Fuel-driven replacement of every non-overlapping occurrence of `pat`,
left to right; `fuel ≥` length of the input makes the fallback unreachable.
Model of Python `str.replace` (for non-empty `pat`). -/
def replace_fuel (pat rep : List Char) : Nat → List Char → List Char
  | _, [] => []
  | 0, s => s
  | fuel + 1, c :: cs =>
    if list_starts pat (c :: cs) then
      rep ++ replace_fuel pat rep fuel (cs.drop (pat.length - 1))
    else
      c :: replace_fuel pat rep fuel cs

/-- Model of Python `s.replace(pat, rep)` (all our patterns are non-empty;
an empty pattern returns `s` unchanged). -/
def py_replace (s pat rep : String) : String :=
  if pat.data.isEmpty then s
  else String.mk (replace_fuel pat.data rep.data s.data.length s.data)

/-- Fuel-driven split on a non-empty separator, accumulating the current
piece in reverse.  Model of Python `str.split(sep)`. -/
def split_fuel (sep : List Char) : Nat → List Char → List Char → List (List Char)
  | _, [], acc => [acc.reverse]
  | 0, s, acc => [acc.reverse ++ s]
  | fuel + 1, c :: cs, acc =>
    if list_starts sep (c :: cs) then
      acc.reverse :: split_fuel sep fuel (cs.drop (sep.length - 1)) []
    else
      split_fuel sep fuel cs (c :: acc)

/-- Model of Python `s.split(sep)` for a non-empty separator (the only way
the repository calls it). -/
def py_split (s sep : String) : List String :=
  if sep.data.isEmpty then [s]
  else (split_fuel sep.data s.data.length s.data []).map String.mk

/-- Model of Python `s.lower()` (ASCII case folding; every character the
repository compares is ASCII). -/
def py_lower (s : String) : String := String.mk (s.data.map Char.toLower)

/-- Model of Python `s.endswith(suffix)`. -/
def py_ends (s sfx : String) : Bool := list_starts sfx.data.reverse s.data.reverse

/-- Model of Python `pat in s` on strings. -/
def py_contains (s pat : String) : Bool := has_sub pat.data s.data

/-- The whitespace characters Python `str.strip()` removes (ASCII subset;
the repository only strips ASCII text). -/
def is_py_space (c : Char) : Bool :=
  c == ' ' || c == '\t' || c == '\n' || c == '\r' || c == '\x0b' || c == '\x0c'

/-- Model of Python `s.strip()`. -/
def py_strip (s : String) : String :=
  String.mk (((s.data.dropWhile is_py_space).reverse.dropWhile is_py_space).reverse)

/-- Model of Python `s.strip(chars)`: remove the characters of `cs` from
both ends. -/
def strip_chars (cs : List Char) (s : String) : String :=
  String.mk (((s.data.dropWhile (cs.contains ·)).reverse.dropWhile (cs.contains ·)).reverse)

/-- Model of Python `s.lstrip(chars)`. -/
def lstrip_chars (cs : List Char) (s : String) : String :=
  String.mk (s.data.dropWhile (cs.contains ·))

/-- Model of Python `sep.join(parts)`. -/
def join_with (sep : String) : List String → String
  | [] => ""
  | [x] => x
  | x :: xs => x ++ sep ++ join_with sep xs

/-- Model of Python slicing `s[:n]` on strings (first `n` characters). -/
def py_take (s : String) (n : Nat) : String := String.mk (s.data.take n)

/-- Insert a thousands separator before every third digit, working on the
reversed digit list; `k` counts digits already emitted. -/
def comma_rev : Nat → List Char → List Char
  | _, [] => []
  | k, c :: cs =>
    if k != 0 && k % 3 == 0 then ',' :: c :: comma_rev (k + 1) cs
    else c :: comma_rev (k + 1) cs

/-- Model of Python format `f"{n:,}"` for a natural number. -/
def py_thousands (n : Nat) : String :=
  String.mk ((comma_rev 0 (Nat.repr n).data.reverse).reverse)

/-! ## Data model (`src/backend/app/models/schemas.py`) -/

/-- `VideoStyle` enum of `schemas.py`. -/
inductive VideoStyle where
  | cinematic | tech | minimal | dynamic | documentary
deriving DecidableEq

/-- `VideoStatus` enum of `schemas.py`. -/
inductive VideoStatus where
  | pending | processing | completed | failed
deriving DecidableEq

/-- `VideoStatusResponse` of `schemas.py`: the mutable job record held in the
process-wide `video_jobs` dict.  `progress` is the 0..100 integer. -/
structure Job where
  job_id : String
  status : VideoStatus
  message : String
  progress : Nat
  video_url : Option String := none
  video_path : Option String := none
  thumbnail_url : Option String := none
deriving DecidableEq

/-- `VideoGenerationResponse` of `schemas.py`. -/
structure VideoGenerationResponse where
  job_id : String
  message : String
  status_url : String
deriving DecidableEq

/-- A raised `HTTPException`: status code and detail string. -/
structure HTTPError where
  code : Nat
  detail : String
deriving DecidableEq

/-- The `FileResponse` returned by the video-download endpoint. -/
structure FileResponseM where
  path : String
  media_type : String
  filename : String
deriving DecidableEq

/-- The fields of the GitHub `repos/{owner}/{repo}` JSON that
`repo_service.py` reads; `none` models an absent key (`dict.get` default). -/
structure RepoInfo where
  name : Option String
  description : Option String
  language : Option String
  stargazers_count : Option Nat
  forks_count : Option Nat
deriving DecidableEq

/-- The values the five concurrent GitHub fetches of `ingest_repository`
deliver, after `asyncio.gather(..., return_exceptions=True)` has already
degraded each failed fetch to its default (`{}` / `[]` / `None` / `""`),
exactly as lines 70-74 of `repo_service.py` do. -/
structure FetchResults where
  repo_info : RepoInfo
  languages : List String
  readme : Option String
  file_tree : String
  topics : List String
deriving DecidableEq

/-- `RepoData` of `schemas.py`. -/
structure RepoData where
  name : String
  description : Option String
  language : Option String
  languages : List String
  topics : List String
  stars : Nat
  forks : Nat
  file_tree : String
  summary : String
  key_files : List String
  readme_content : Option String
  image_urls : List String
deriving DecidableEq

/-! ## URL parsing (`urllib.parse.urlparse` as used by `RepoService`) -/

/-- The part of the URL after the first `"://"`, when a scheme is present. -/
def url_after_scheme (url : String) : Option String :=
  match py_split url "://" with
  | _ :: rest₀ :: rest => some (join_with "://" (rest₀ :: rest))
  | _ => none

/-- Model of `urlparse(url).netloc` for the http(s) URLs the service
accepts. -/
def url_netloc (url : String) : String :=
  match url_after_scheme url with
  | some rest => (py_split rest "/").headD ""
  | none => ""

/-- Model of `urlparse(url).path` for the http(s) URLs the service accepts
(query/fragment components are not modelled; no claim involves them). -/
def url_path (url : String) : String :=
  match url_after_scheme url with
  | some rest =>
    match py_split rest "/" with
    | _ :: seg₀ :: segs => "/" ++ join_with "/" (seg₀ :: segs)
    | _ => ""
  | none => url

/-- `RepoService._parse_github_url` (`repo_service.py` lines 28-39):
`path.strip("/").split("/")`, fewer than two parts raises
`ValueError("Invalid GitHub URL format")`, else owner and repo with
`".git"` removed. -/
def parse_github_url (url : String) : Except String (String × String) :=
  match py_split (strip_chars ['/'] (url_path url)) "/" with
  | owner :: repo :: _ => .ok (owner, py_replace repo ".git" "")
  | _ => .error "Invalid GitHub URL format"

instance {ε α : Type _} [DecidableEq ε] [DecidableEq α] : DecidableEq (Except ε α) := fun
  | .ok a, .ok b => decidable_of_iff (a = b) (by simp)
  | .error e, .error f => decidable_of_iff (e = f) (by simp)
  | .ok _, .error _ => .isFalse (by simp)
  | .error _, .ok _ => .isFalse (by simp)

/-! ## Repository summarization (`repo_service.py`) -/

/-- `RepoService._build_summary` (`repo_service.py` lines 173-194).
Python truthiness: an absent key, `None`, `""` and `0` all skip their part. -/
def build_summary (repo_info : RepoInfo) (languages : List String) (readme : Option String) : String :=
  let parts₁ := ["Repository: " ++ repo_info.name.getD "Unknown"]
  let parts₂ :=
    match repo_info.description with
    | some d => if d = "" then parts₁ else parts₁ ++ ["Description: " ++ d]
    | none => parts₁
  let parts₃ :=
    if languages.isEmpty then parts₂
    else parts₂ ++ ["Languages: " ++ join_with ", " (languages.take 5)]
  let parts₄ :=
    match repo_info.stargazers_count with
    | some c => if c = 0 then parts₃ else parts₃ ++ ["Stars: " ++ py_thousands c]
    | none => parts₃
  let parts₅ :=
    match readme with
    | some r =>
      if r = "" then parts₄
      else parts₄ ++ ["README Preview: " ++ py_take ((py_split r "\n\n").headD "") 500]
    | none => parts₄
  join_with "\n" parts₅

/-- The fixed pattern list of `RepoService._identify_key_files`
(`repo_service.py` lines 198-203). -/
def key_patterns : List String :=
  ["README", "LICENSE", "CONTRIBUTING",
   "package.json", "requirements.txt", "Cargo.toml",
   "setup.py", "pyproject.toml", "go.mod",
   "Dockerfile", "docker-compose", ".github/workflows"]

/-- Filename extraction of `_identify_key_files`:
`line.replace("📁 ", "").replace("📄 ", "")`. -/
def line_filename (line : String) : String :=
  py_replace (py_replace line "📁 " "") "📄 " ""

/-- Does a tree line match some key pattern, case-insensitively?  This is the
inner `for pattern ... if pattern.lower() in line.lower()` of
`_identify_key_files`; the `break` means each line is appended at most
once. -/
def is_key_line (line : String) : Bool :=
  key_patterns.any (fun pat => py_contains (py_lower line) (py_lower pat))

/-- The outer loop of `_identify_key_files`: walk the lines, appending the
cleaned filename of every matching line. -/
def collect_key_files : List String → List String
  | [] => []
  | line :: rest =>
    if is_key_line line then line_filename line :: collect_key_files rest
    else collect_key_files rest

/-- `RepoService._identify_key_files` (`repo_service.py` lines 196-214):
collect matching lines in order, then `key_files[:10]`. -/
def identify_key_files (file_tree : String) : List String :=
  (collect_key_files (py_split file_tree "\n")).take 10

/-- The image extensions of `RepoService._extract_image_urls`
(`repo_service.py` line 218). -/
def image_extensions : List String := [".png", ".jpg", ".jpeg", ".gif", ".webp", ".svg"]

/-- The common asset subdirectories of `_extract_image_urls`
(`repo_service.py` line 249). -/
def asset_subdirs : List String := ["assets", "images", "img", "docs", "static", "public"]

/-- The character set of `line.lstrip("│ ├└─ ")` in `_extract_image_urls`. -/
def tree_edge_chars : List Char := ['│', ' ', '├', '└', '─']

/-- Filename cleaning of `_extract_image_urls` (lines 230-234):
`line.lstrip("│ ├└─ ")`, then both emoji markers removed, then `strip()`.
(The `indent_level` computed alongside is never used.) -/
def clean_image_filename (line : String) : String :=
  py_strip (py_replace (py_replace (lstrip_chars tree_edge_chars line) "📁 " "") "📄 " "")

/-- The body of the `for line in lines` loop of `_extract_image_urls`
(lines 225-253), acting on the accumulated `image_urls` list: skip blank
lines and empty filenames; for an image filename append the raw-content URL
unconditionally, then for each asset subdirectory whose name occurs anywhere
in the lowercased tree text append the guessed URL unless it is already
present. -/
def add_line_urls (owner repo tree_lower : String) (acc : List String) (line : String) : List String :=
  if py_strip line = "" then acc
  else
    let filename := clean_image_filename line
    if filename = "" then acc
    else if image_extensions.any (fun ext => py_ends (py_lower filename) ext) then
      let raw := "https://raw.githubusercontent.com/" ++ owner ++ "/" ++ repo ++ "/main/" ++ filename
      asset_subdirs.foldl
        (fun a subdir =>
          if py_contains tree_lower subdir then
            let alt := "https://raw.githubusercontent.com/" ++ owner ++ "/" ++ repo ++
              "/main/" ++ subdir ++ "/" ++ filename
            if a.contains alt then a else a ++ [alt]
          else a)
        (acc ++ [raw])
    else acc

/-- `RepoService._extract_image_urls` (`repo_service.py` lines 216-256):
fold the loop body over the tree lines, then `image_urls[:5]`. -/
def extract_image_urls (file_tree owner repo : String) : List String :=
  ((py_split file_tree "\n").foldl (add_line_urls owner repo (py_lower file_tree)) []).take 5

/-- `RepoService.ingest_repository` (`repo_service.py` lines 41-111) with the
five network fetches replaced by their (already degraded) results `fr`:
only a malformed URL is fatal; otherwise the `RepoData` is assembled. -/
def ingest_repository (repo_url : String) (fr : FetchResults) : Except String RepoData :=
  match parse_github_url repo_url with
  | .error e => .error e
  | .ok (owner, repo) =>
    .ok { name := fr.repo_info.name.getD repo
          description := fr.repo_info.description
          language := fr.repo_info.language
          languages := fr.languages
          topics := fr.topics
          stars := fr.repo_info.stargazers_count.getD 0
          forks := fr.repo_info.forks_count.getD 0
          file_tree := fr.file_tree
          summary := build_summary fr.repo_info fr.languages fr.readme
          key_files := identify_key_files fr.file_tree
          readme_content := fr.readme
          image_urls := extract_image_urls fr.file_tree owner repo }

/-! ## Video service (`video_service.py`) -/

/-- `get_sora_duration` (`video_service.py` lines 24-31): map the requested
duration to Sora's allowed values, returned as a string. -/
def get_sora_duration (requested_duration : Int) : String :=
  if requested_duration ≤ 4 then "4"
  else if requested_duration ≤ 8 then "8"
  else "12"

/-- `get_sora_size` (`video_service.py` lines 35-37). -/
def get_sora_size (landscape : Bool) : String :=
  if landscape then "1280x720" else "720x1280"

/-- The `style_modifiers` dict of `generate_video_with_progress`
(`video_service.py` lines 183-189); `.get(style, modifiers[TECH])` never
falls through because every enum value is a key. -/
def style_modifier : VideoStyle → String
  | .cinematic => "Slow camera movement, dramatic lighting, depth of field"
  | .tech => "Neon blue and purple colors, dark background, glowing elements"
  | .minimal => "Clean white background, subtle animations, simple shapes"
  | .dynamic => "Fast motion, vibrant colors, energetic particle effects"
  | .documentary => "Steady camera, neutral lighting, smooth transitions"

/-- The creation request body of `generate_video_with_progress`
(`video_service.py` lines 194-213): enhanced prompt, model, size and
seconds fields. -/
def sora_form_data (script : String) (style : VideoStyle) (duration : Int) :
    List (String × String) :=
  [("model", "sora-2-pro"),
   ("prompt", script ++ " Style: " ++ style_modifier style ++ "."),
   ("size", get_sora_size true),
   ("seconds", get_sora_duration duration)]

/-- `update_sora_progress` mapping (`main.py` lines 149-150):
`min(30 + int(sora_progress * 0.65), 95)`.  For an integer
`0 ≤ p ≤ 100`, the float product `p * 0.65` truncates to
`⌊13 * p / 20⌋` (the true value is at least `1/20` away from every
integer except at multiples of 20, where the rounding error, under half an
ulp, vanishes), so the mapping is exact integer arithmetic here. -/
def sora_progress_map (sora_progress : Nat) : Nat :=
  min (30 + 13 * sora_progress / 20) 95

/-- One provider behavior of `generate_video_with_progress`
(`video_service.py` lines 161-300), as observed through its callback and
its result: the creation request fails; or the poll loop runs and the
terminal provider status is `"failed"`; or the download raises after a
successful generation; or everything succeeds.  Each poll observation is
`(queued?, progress)`: the status and the `progress` field of the body the
poll returned (the loop body invokes the callback for the terminal
observation as well, since the `while` condition is only re-checked
afterwards). -/
inductive SoraRun where
  | createError (detail : String)
  | soraFailed (polls : List (Bool × Nat)) (error_msg : String)
  | downloadError (polls : List (Bool × Nat)) (detail : String)
  | success (polls : List (Bool × Nat)) (video_id : String)
deriving DecidableEq

/-- The message the poll loop forwards (`video_service.py` line 279). -/
def poll_msg (queued : Bool) (p : Nat) : String :=
  if queued then "Queued..." else "Generating video... " ++ toString p ++ "%"

/-- The `(progress, message)` pairs `generate_video_with_progress` feeds to
`progress_callback`, in order (`video_service.py` lines 204-295):
`(0, submit)` before creation; `(5, queued)` after; one pair per poll;
`(95, downloading)` after a successful loop; `(100, ready)` after a
successful download. -/
def sora_callbacks : SoraRun → List (Nat × String)
  | .createError _ => [(0, "Submitting video to Sora...")]
  | .soraFailed polls _ =>
    (0, "Submitting video to Sora...") :: (5, "Video queued, waiting for processing...") ::
      polls.map (fun bp => (bp.2, poll_msg bp.1 bp.2))
  | .downloadError polls _ =>
    (0, "Submitting video to Sora...") :: (5, "Video queued, waiting for processing...") ::
      (polls.map (fun bp => (bp.2, poll_msg bp.1 bp.2)) ++ [(95, "Downloading video...")])
  | .success polls _ =>
    (0, "Submitting video to Sora...") :: (5, "Video queued, waiting for processing...") ::
      (polls.map (fun bp => (bp.2, poll_msg bp.1 bp.2)) ++
        [(95, "Downloading video..."), (100, "Video ready!")])

/-- The result of `generate_video_with_progress`: the local path on
success, or the message of the exception the outer handler re-raises
(`video_service.py` lines 253, 286, 299-300, 315, 323). -/
def sora_result : SoraRun → Except String String
  | .createError d => .error ("Video generation failed: " ++ d)
  | .soraFailed _ e =>
    .error ("Video generation failed: Video generation failed in Sora: " ++ e)
  | .downloadError _ d =>
    .error ("Video generation failed: Failed to download video: " ++ d)
  | .success _ video_id => .ok ("generated_videos/" ++ video_id ++ ".mp4")

/-- The provider progress values the poll loop observed, in order. -/
def poll_values : SoraRun → List Nat
  | .createError _ => []
  | .soraFailed polls _ => polls.map (·.2)
  | .downloadError polls _ => polls.map (·.2)
  | .success polls _ => polls.map (·.2)

/-! ## Job store and endpoints (`main.py`) -/

/-- The process-wide `video_jobs` dict, as an association list. -/
def JobMap : Type := List (String × Job)

instance : DecidableEq JobMap := inferInstanceAs (DecidableEq (List (String × Job)))

/-- Python `video_jobs[job_id]` lookup / `job_id in video_jobs`. -/
def lookupJob : JobMap → String → Option Job
  | [], _ => none
  | (k, v) :: rest, job_id => if k = job_id then some v else lookupJob rest job_id

/-- Python `video_jobs[job_id] = job`: replace in place if the key exists,
else append. -/
def setJob : JobMap → String → Job → JobMap
  | [], job_id, j => [(job_id, j)]
  | (k, v) :: rest, job_id, j =>
    if k = job_id then (k, j) :: rest else (k, v) :: setJob rest job_id j

/-- The job record `generate_video` creates (`main.py` lines 63-68). -/
def initial_job (job_id : String) : Job :=
  { job_id := job_id
    status := .pending
    message := "Video generation queued"
    progress := 0 }

/-- The pydantic validation of `VideoGenerationRequest` (`schemas.py`
lines 27-48), modelled for the fields with constraints: `repo_url` must be
a well-formed http(s) URL (`HttpUrl`), `openai_api_key` at least 20
characters, `duration` in `[4, 12]`; `video_style` is enum-typed.  A
request failing this never reaches the endpoint body (FastAPI returns 422
synchronously). -/
def request_valid (repo_url openai_api_key : String) (duration : Int) : Bool :=
  (list_starts "http://".data repo_url.data || list_starts "https://".data repo_url.data) &&
    decide (url_netloc repo_url ≠ "") &&
    decide (20 ≤ openai_api_key.data.length) &&
    decide (4 ≤ duration) && decide (duration ≤ 12)

/-- The `POST /api/generate` handler `generate_video` (`main.py` lines
47-84), for a request that passed validation: store a fresh Pending job
under the new id, schedule the background task (modelled separately by
`process_video_generation`), and return the response.  Note the handler
never parses the URL path itself. -/
def generate_video (jobs : JobMap) (job_id repo_url api_key : String)
    (style : VideoStyle) (duration : Int) : JobMap × VideoGenerationResponse :=
  let _ := (repo_url, api_key, style, duration)
  (setJob jobs job_id (initial_job job_id),
   { job_id := job_id
     message := "Video generation started"
     status_url := "/api/status/" ++ job_id })

/-- The `GET /api/status/{job_id}` handler (`main.py` lines 154-160). -/
def get_video_status (jobs : JobMap) (job_id : String) : Except HTTPError Job :=
  match lookupJob jobs job_id with
  | none => .error { code := 404, detail := "Job not found" }
  | some j => .ok j

/-- Python `getattr(job, 'video_path', None) or job.video_url`:
the first operand wins unless it is falsy (`None` or `""`). -/
def truthy_or : Option String → Option String → Option String
  | some s, b => if s = "" then b else some s
  | none, b => b

/-- The `GET /api/video/{job_id}` handler `get_video` (`main.py` lines
163-192); `disk` is the set of paths `os.path.exists` accepts. -/
def get_video (jobs : JobMap) (disk : List String) (job_id : String) :
    Except HTTPError FileResponseM :=
  match lookupJob jobs job_id with
  | none => .error { code := 404, detail := "Job not found" }
  | some job =>
    if job.status = .completed then
      match truthy_or job.video_path job.video_url with
      | none => .error { code := 404, detail := "Video file not found" }
      | some p =>
        if p = "" then .error { code := 404, detail := "Video file not found" }
        else if disk.contains p then
          .ok { path := p, media_type := "video/mp4", filename := "gitvideo_" ++ job_id ++ ".mp4" }
        else .error { code := 404, detail := "Video file not found at " ++ p }
    else .error { code := 400, detail := "Video not ready yet" }

/-- The state change `update_sora_progress` applies to a present job
(`main.py` lines 149-151). -/
def apply_sora_callback (j : Job) (p : Nat) (msg : String) : Job :=
  { j with progress := sora_progress_map p, message := msg }

/-- `update_sora_progress` (`main.py` lines 145-151): a guard on
membership, then the progress mapping and the message. -/
def update_sora_progress (jobs : JobMap) (job_id : String) (p : Nat) (msg : String) : JobMap :=
  match lookupJob jobs job_id with
  | some j => setJob jobs job_id (apply_sora_callback j p msg)
  | none => jobs

/-! ## The background pipeline (`main.py` `process_video_generation`)

The pipeline mutates its own job record in place; here it is rendered as
the sequence of job states after each mutation block, starting from the
record `generate_video` stored.  The progress callback it installs is
`lambda p, m: update_sora_progress(job_id, p, m)`; the job is present in
the dict throughout (inserted before scheduling, never deleted), so the
callback's membership guard passes and its action on the record is
`apply_sora_callback`. -/

/-- `main.py` lines 97-99. -/
def stage1 (j : Job) : Job :=
  { j with status := .processing, message := "Analyzing repository...", progress := 5 }

/-- `main.py` lines 105-106. -/
def stage2 (j : Job) : Job :=
  { stage1 j with message := "Repository analyzed successfully", progress := 15 }

/-- `main.py` lines 109-110. -/
def stage3 (j : Job) : Job :=
  { stage2 j with message := "Creating video script with AI...", progress := 20 }

/-- `main.py` lines 115-116. -/
def stage4 (j : Job) : Job :=
  { stage3 j with message := "Video script created", progress := 25 }

/-- `main.py` lines 119-120. -/
def stage5 (j : Job) : Job :=
  { stage4 j with
    message := "Starting video generation with Sora (this may take several minutes)..."
    progress := 30 }

/-- `main.py` lines 139-142: the `except` handler. -/
def fail_update (j : Job) (e : String) : Job :=
  { j with status := .failed, message := "Error: " ++ e, progress := 0 }

/-- `main.py` lines 131-137: the final success block. -/
def complete_update (j : Job) (path : String) : Job :=
  { j with
    status := .completed
    message := "Video generated successfully!"
    progress := 100
    video_path := some path
    video_url := some ("http://localhost:8000/api/video/" ++ j.job_id) }

/-- Run the callback sequence from a job state, collecting the state after
each callback. -/
def apply_callbacks : Job → List (Nat × String) → List Job
  | _, [] => []
  | j, (p, m) :: rest =>
    apply_sora_callback j p m :: apply_callbacks (apply_sora_callback j p m) rest

/-- `process_video_generation` (`main.py` lines 87-142) as the list of job
states after each mutation, starting from the stored record `j`.  `fr`
supplies the GitHub fetch results, `script` the outcome of
`generate_script` (an external LLM call), `run` the provider behavior of
`generate_video_with_progress`. -/
def process_video_generation (j : Job) (repo_url : String) (fr : FetchResults)
    (script : Except String String) (run : SoraRun) : List Job :=
  match ingest_repository repo_url fr with
  | .error e => [stage1 j, fail_update (stage1 j) e]
  | .ok _ =>
    match script with
    | .error e => [stage1 j, stage2 j, stage3 j, fail_update (stage3 j) e]
    | .ok _ =>
      let cbStates := apply_callbacks (stage5 j) (sora_callbacks run)
      let before := [stage1 j, stage2 j, stage3 j, stage4 j, stage5 j] ++ cbStates
      match sora_result run with
      | .error e => before ++ [fail_update (cbStates.getLastD (stage5 j)) e]
      | .ok path => before ++ [complete_update (cbStates.getLastD (stage5 j)) path]

/-- The detail text of the first exception the pipeline's `try` block
raises, if any: URL parsing (inside `ingest_repository`; the other fetches
degrade silently), then `generate_script`, then
`generate_video_with_progress`. -/
def pipeline_error (repo_url : String) (fr : FetchResults)
    (script : Except String String) (run : SoraRun) : Option String :=
  match ingest_repository repo_url fr with
  | .error e => some e
  | .ok _ =>
    match script with
    | .error e => some e
    | .ok _ =>
      match sora_result run with
      | .error e => some e
      | .ok _ => none

/-- A convenient all-defaulted fetch environment (every GitHub call
failed or returned nothing). -/
def trivial_fetch : FetchResults :=
  { repo_info := { name := none, description := none, language := none,
                   stargazers_count := none, forks_count := none }
    languages := []
    readme := none
    file_tree := ""
    topics := [] }

/-! ## Remaining definitions used by the theorems -/

/-- Monotonicity of displayed progress between two job states, read only
while both are Processing (the spec's invariant quantifies over that
phase). -/
def procMono (a b : Job) : Prop :=
  a.status = .processing → b.status = .processing → a.progress ≤ b.progress

instance (a b : Job) : Decidable (procMono a b) :=
  if h : a.status = .processing then
    if h₂ : b.status = .processing then
      if h₃ : a.progress ≤ b.progress then .isTrue (fun _ _ => h₃)
      else .isFalse (fun f => h₃ (f h h₂))
    else .isTrue (fun _ hb => absurd hb h₂)
  else .isTrue (fun ha _ => absurd ha h)

/-- A processing job, as the status endpoint would show it mid-pipeline. -/
def sample_processing_job : Job :=
  { job_id := "p1", status := .processing, message := "Analyzing repository...", progress := 5 }

/-- A completed job with its recorded path, as the pipeline leaves it. -/
def sample_completed_job : Job :=
  { job_id := "d1"
    status := .completed
    message := "Video generated successfully!"
    progress := 100
    video_url := some "http://localhost:8000/api/video/d1"
    video_path := some "generated_videos/vid.mp4" }

/-- A two-job store holding the two samples. -/
def sample_jobs : JobMap := [("p1", sample_processing_job), ("d1", sample_completed_job)]

/-! ## Helper lemmas -/

theorem sora_progress_map_mono {p q : Nat} (h : p ≤ q) :
    sora_progress_map p ≤ sora_progress_map q := by
  unfold sora_progress_map
  have h13 : 13 * p / 20 ≤ 13 * q / 20 :=
    Nat.div_le_div_right (Nat.mul_le_mul_left 13 h)
  exact min_le_min (by omega) (le_refl 95)

theorem getLast_cons_concat {α : Type _} (a x : α) (l : List α) :
    (a :: (l ++ [x])).getLast? = some x := by
  rw [← List.cons_append, List.getLast?_concat]

theorem lookup_setJob_self (jobs : JobMap) (job_id : String) (j : Job) :
    lookupJob (setJob jobs job_id j) job_id = some j := by
  induction jobs with
  | nil => simp [setJob, lookupJob]
  | cons kv rest ih =>
    obtain ⟨k, v⟩ := kv
    by_cases hk : k = job_id <;> simp [setJob, lookupJob, hk, ih]

/-! ## C4: the progress-mapping function -/

/-- C4: the progress-mapping function applied to provider progress `p` is
`min(30 + floor(p * 0.65), 95)` (extracted from `update_sora_progress`,
`main.py` lines 145-151, as `sora_progress_map`); it satisfies `f 0 = 30`,
`f 100 = 95` and is monotone non-decreasing on `[0, 100]`. -/
theorem sora_progress_map_spec :
    sora_progress_map 0 = 30 ∧ sora_progress_map 100 = 95 ∧
    ∀ p q : Nat, p ≤ q → q ≤ 100 → sora_progress_map p ≤ sora_progress_map q :=
  ⟨rfl, rfl, fun _ _ h _ => sora_progress_map_mono h⟩

/-- Witness for C4 at 40 ≤ 80. -/
theorem sora_progress_map_spec_witness :
    sora_progress_map 40 ≤ sora_progress_map 80 :=
  sora_progress_map_spec.2.2 40 80 (by decide) (by decide)

/-! ## C5: duration mapping -/

/-- C5: `get_sora_duration` (`video_service.py` lines 24-31) maps every
requested duration by thresholds `d ≤ 4 → 4`, `d ≤ 8 → 8`, else `12`
(Sora takes the value as a string); in particular the six sample points of
the spec hold. -/
theorem get_sora_duration_spec :
    get_sora_duration 3 = "4" ∧ get_sora_duration 4 = "4" ∧
    get_sora_duration 5 = "8" ∧ get_sora_duration 8 = "8" ∧
    get_sora_duration 9 = "12" ∧ get_sora_duration 12 = "12" ∧
    ∀ d : Int, (d ≤ 4 → get_sora_duration d = "4") ∧
      (4 < d → d ≤ 8 → get_sora_duration d = "8") ∧
      (8 < d → get_sora_duration d = "12") := by
  refine ⟨by decide, by decide, by decide, by decide, by decide, by decide, fun d => ⟨?_, ?_, ?_⟩⟩
  · intro h; unfold get_sora_duration; rw [if_pos h]
  · intro h₄ h₈; unfold get_sora_duration; rw [if_neg (by omega), if_pos h₈]
  · intro h₈; unfold get_sora_duration; rw [if_neg (by omega), if_neg (by omega)]

/-- Witness for C5 at duration 7. -/
theorem get_sora_duration_spec_witness : get_sora_duration 7 = "8" :=
  (get_sora_duration_spec.2.2.2.2.2.2 7).2.1 (by decide) (by decide)

/-! ## C9: a fresh submission is Pending at progress 0 -/

/-- C9: for every valid submission, the job record `generate_video` stores
has status Pending, progress 0 and the queued message, so `getStatus`
called before the background pipeline runs returns exactly that record;
the response carries the status-check locator. -/
theorem submit_then_status (jobs : JobMap) (job_id repo_url api_key : String)
    (style : VideoStyle) (duration : Int)
    (_hval : request_valid repo_url api_key duration = true) :
    get_video_status (generate_video jobs job_id repo_url api_key style duration).1 job_id =
      .ok { job_id := job_id, status := .pending,
            message := "Video generation queued", progress := 0 } ∧
    (generate_video jobs job_id repo_url api_key style duration).2 =
      { job_id := job_id, message := "Video generation started",
        status_url := "/api/status/" ++ job_id } := by
  refine ⟨?_, rfl⟩
  simp [generate_video, get_video_status, lookup_setJob_self, initial_job]

/-- Witness for C9: a concrete valid submission into an empty store. -/
theorem submit_then_status_witness :
    get_video_status (generate_video [] "job-1" "https://github.com/octocat/Hello-World"
        "sk-aaaaaaaaaaaaaaaaaaaaa" .tech 8).1 "job-1" =
      .ok { job_id := "job-1", status := .pending,
            message := "Video generation queued", progress := 0 } :=
  (submit_then_status [] "job-1" "https://github.com/octocat/Hello-World"
    "sk-aaaaaaaaaaaaaaaaaaaaa" .tech 8 (by decide)).1

/-! ## C10: the progress callback on an unknown id is a no-op -/

/-- C10: for every job identifier absent from the job mapping,
`update_sora_progress` (`main.py` lines 145-151) returns without raising
and leaves the mapping unchanged, for every progress value and message. -/
theorem update_sora_progress_unknown (jobs : JobMap) (job_id : String) (p : Nat) (msg : String)
    (h : lookupJob jobs job_id = none) :
    update_sora_progress jobs job_id p msg = jobs := by
  unfold update_sora_progress
  rw [h]

/-- Witness for C10: an id not in a one-job store. -/
theorem update_sora_progress_unknown_witness :
    update_sora_progress [("job-1", initial_job "job-1")] "missing" 50
        "Generating video... 50%" =
      [("job-1", initial_job "job-1")] :=
  update_sora_progress_unknown _ _ _ _ rfl

/-! ## C6: the artifact-download endpoint -/

/-- C6: for every job identifier, `get_video` (`main.py` lines 163-192)
fails 404 when the identifier is unknown; fails 400 when the job's status
is not Completed; on a Completed job whose recorded (truthy) path is not
on disk fails 404 naming the path; otherwise serves the stored file as
`video/mp4` under the `gitvideo_{job_id}.mp4` filename. -/
theorem get_video_spec (jobs : JobMap) (disk : List String) (job_id : String) :
    (lookupJob jobs job_id = none →
      get_video jobs disk job_id = .error { code := 404, detail := "Job not found" }) ∧
    (∀ j, lookupJob jobs job_id = some j → j.status ≠ .completed →
      get_video jobs disk job_id = .error { code := 400, detail := "Video not ready yet" }) ∧
    (∀ j p, lookupJob jobs job_id = some j → j.status = .completed →
      truthy_or j.video_path j.video_url = some p → p ≠ "" → disk.contains p = false →
      get_video jobs disk job_id =
        .error { code := 404, detail := "Video file not found at " ++ p }) ∧
    (∀ j p, lookupJob jobs job_id = some j → j.status = .completed →
      truthy_or j.video_path j.video_url = some p → p ≠ "" → disk.contains p = true →
      get_video jobs disk job_id =
        .ok { path := p, media_type := "video/mp4",
              filename := "gitvideo_" ++ job_id ++ ".mp4" }) := by
  refine ⟨?_, ?_, ?_, ?_⟩
  · intro h; simp [get_video, h]
  · intro j hj hs; simp [get_video, hj, hs]
  · intro j p hj hs hp hne hd; simp [get_video, hj, hs, hp, hne, hd]; simpa using hd
  · intro j p hj hs hp hne hd; simp [get_video, hj, hs, hp, hne, hd]; simpa using hd

/-- Witness for C6: all four behaviors at concrete stores — an unknown id,
a Processing job, a Completed job whose file was deleted from disk, and a
Completed job whose file exists. -/
theorem get_video_spec_witness :
    get_video [] [] "zz" = .error { code := 404, detail := "Job not found" } ∧
    get_video sample_jobs [] "p1" =
      .error { code := 400, detail := "Video not ready yet" } ∧
    get_video sample_jobs [] "d1" =
      .error { code := 404, detail := "Video file not found at generated_videos/vid.mp4" } ∧
    get_video sample_jobs ["generated_videos/vid.mp4"] "d1" =
      .ok { path := "generated_videos/vid.mp4", media_type := "video/mp4",
            filename := "gitvideo_d1.mp4" } :=
  ⟨(get_video_spec [] [] "zz").1 rfl,
   (get_video_spec sample_jobs [] "p1").2.1 sample_processing_job rfl (by decide),
   (get_video_spec sample_jobs [] "d1").2.2.1 sample_completed_job
     "generated_videos/vid.mp4" rfl rfl rfl (by decide) rfl,
   (get_video_spec sample_jobs ["generated_videos/vid.mp4"] "d1").2.2.2 sample_completed_job
     "generated_videos/vid.mp4" rfl rfl rfl (by decide) rfl⟩

/-! ## C7: key-file detection -/

theorem collect_key_files_eq (lines : List String) :
    collect_key_files lines = (lines.filter is_key_line).map line_filename := by
  induction lines with
  | nil => rfl
  | cons l rest ih =>
    cases h : is_key_line l <;> simp [collect_key_files, List.filter_cons, h, ih]

/-- C7: `identify_key_files` (`repo_service.py` lines 196-214) returns, in
first-found line order and capped at 10 entries, the cleaned filenames of
the lines matching the fixed pattern list case-insensitively; for the
spec's example tree it keeps `package.json` and drops `random.txt`. -/
theorem identify_key_files_spec :
    (∀ t, identify_key_files t =
      (((py_split t "\n").filter is_key_line).map line_filename).take 10) ∧
    (∀ t, (identify_key_files t).length ≤ 10) ∧
    identify_key_files "📄 package.json\n📄 random.txt" = ["package.json"] ∧
    "package.json" ∈ identify_key_files "📄 package.json\n📄 random.txt" ∧
    "random.txt" ∉ identify_key_files "📄 package.json\n📄 random.txt" := by
  refine ⟨fun t => by simp [identify_key_files, collect_key_files_eq],
    fun t => ?_, by decide, by decide, by decide⟩
  unfold identify_key_files
  rw [List.length_take]
  exact Nat.min_le_left _ _

/-! ## C3: image-URL extraction (corrected) -/

/-- C3 counterexample: the raw-content URL is appended without a duplicate
check (only the subdirectory guesses are deduplicated,
`repo_service.py` lines 245-253), so a tree listing both `logo.png` and
`assets/logo.png` yields the URL `.../main/assets/logo.png` twice — once
as the guess for the first file and once as the raw URL of the second —
refuting the claimed "no exact duplicates". -/
theorem extract_image_urls_counterexample :
    extract_image_urls "📄 logo.png\n📄 assets/logo.png" "o" "r" =
      ["https://raw.githubusercontent.com/o/r/main/logo.png",
       "https://raw.githubusercontent.com/o/r/main/assets/logo.png",
       "https://raw.githubusercontent.com/o/r/main/assets/logo.png",
       "https://raw.githubusercontent.com/o/r/main/assets/assets/logo.png"] ∧
    ¬ (extract_image_urls "📄 logo.png\n📄 assets/logo.png" "o" "r").Nodup :=
  ⟨by decide, by decide⟩

/-- C3 amended: `extract_image_urls` returns at most 5 URLs in first-found
order, deduplicating only the guessed subdirectory URLs (exact duplicates
of a raw-content URL can appear); for the spec's example tree the output
is exactly the raw URL and the `assets` guess. -/
theorem extract_image_urls_amended :
    (∀ t o r, (extract_image_urls t o r).length ≤ 5) ∧
    extract_image_urls "📄 logo.png\n📁 assets" "octocat" "Hello-World" =
      ["https://raw.githubusercontent.com/octocat/Hello-World/main/logo.png",
       "https://raw.githubusercontent.com/octocat/Hello-World/main/assets/logo.png"] := by
  refine ⟨fun t o r => ?_, by decide⟩
  unfold extract_image_urls
  rw [List.length_take]
  exact Nat.min_le_left _ _

/-! ## C2: malformed repository URLs (corrected) -/

/-- C2 counterexample: `https://github.com/onlyowner` has fewer than two
path segments, yet it is a well-formed URL, so pydantic validation passes,
`generate_video` creates a Pending job record, and the request enters the
background pipeline, which only then fails the job — the claimed
synchronous rejection with no job record does not happen.  The
path-segment check lives in `RepoService._parse_github_url`, which runs
inside `process_video_generation` (`main.py` line 103), not in the
endpoint. -/
theorem malformed_url_counterexample :
    request_valid "https://github.com/onlyowner" "sk-aaaaaaaaaaaaaaaaaaaaa" 8 = true ∧
    parse_github_url "https://github.com/onlyowner" = .error "Invalid GitHub URL format" ∧
    lookupJob (generate_video [] "job-1" "https://github.com/onlyowner"
        "sk-aaaaaaaaaaaaaaaaaaaaa" .tech 8).1 "job-1" = some (initial_job "job-1") ∧
    (process_video_generation (initial_job "job-1") "https://github.com/onlyowner"
        trivial_fetch (.ok "script") (.success [] "vid")).map (fun s => (s.status, s.progress)) =
      [(.processing, 5), (.failed, 0)] :=
  ⟨by decide, by decide, by decide, by decide⟩

/-- C2 amended: a submission whose repository URL fails the path-segment
parse is still accepted by the endpoint (whose only URL validation is
pydantic's well-formedness check): a Pending job record is created, and
the background pipeline fails the job asynchronously with the parse
error's message; only a request failing body validation is rejected
synchronously with no job record. -/
theorem malformed_url_amended (jobs : JobMap) (job_id repo_url api_key : String)
    (style : VideoStyle) (duration : Int) (fr : FetchResults)
    (script : Except String String) (run : SoraRun) (e : String)
    (hparse : parse_github_url repo_url = .error e) :
    lookupJob (generate_video jobs job_id repo_url api_key style duration).1 job_id =
      some (initial_job job_id) ∧
    (process_video_generation (initial_job job_id) repo_url fr script run).map
        (fun s => (s.status, s.progress, s.message)) =
      [(.processing, 5, "Analyzing repository..."), (.failed, 0, "Error: " ++ e)] := by
  constructor
  · simp [generate_video, lookup_setJob_self]
  · have hing : ingest_repository repo_url fr = .error e := by
      simp [ingest_repository, hparse]
    simp [process_video_generation, hing, stage1, fail_update, initial_job]

/-- Witness for C2's amended claim at the counterexample's URL. -/
theorem malformed_url_amended_witness :
    lookupJob (generate_video [] "job-2" "https://github.com/onlyowner"
        "sk-aaaaaaaaaaaaaaaaaaaaa" .tech 8).1 "job-2" = some (initial_job "job-2") ∧
    (process_video_generation (initial_job "job-2") "https://github.com/onlyowner"
        trivial_fetch (.ok "script") (.success [] "vid")).map
        (fun s => (s.status, s.progress, s.message)) =
      [(.processing, 5, "Analyzing repository..."),
       (.failed, 0, "Error: " ++ "Invalid GitHub URL format")] :=
  malformed_url_amended [] "job-2" "https://github.com/onlyowner" "sk-aaaaaaaaaaaaaaaaaaaaa"
    .tech 8 trivial_fetch (.ok "script") (.success [] "vid") "Invalid GitHub URL format"
    (by decide)

/-! ## C8: every pipeline error fails the job with an "Error:" message -/

/-- C8: whenever the background pipeline raises — URL parsing inside
ingestion, script generation, or any stage of video generation — the
`except` handler (`main.py` lines 139-142) leaves the job Failed with
progress 0 and message `"Error: "` followed by the exception's text, and
the trace ends there (the background task returns instead of re-raising;
the model is a total function, so termination is by construction). -/
theorem pipeline_failure_spec (j : Job) (repo_url : String) (fr : FetchResults)
    (script : Except String String) (run : SoraRun) (e : String)
    (herr : pipeline_error repo_url fr script run = some e) :
    ∃ jf, (process_video_generation j repo_url fr script run).getLast? = some jf ∧
      jf.status = .failed ∧ jf.progress = 0 ∧ jf.message = "Error: " ++ e := by
  unfold pipeline_error at herr
  cases hing : ingest_repository repo_url fr with
  | error e' =>
    rw [hing] at herr
    injection herr with he
    subst he
    refine ⟨fail_update (stage1 j) e', ?_, rfl, rfl, rfl⟩
    simp [process_video_generation, hing]
  | ok rd =>
    rw [hing] at herr
    cases script with
    | error e' =>
      injection herr with he
      subst he
      refine ⟨fail_update (stage3 j) e', ?_, rfl, rfl, rfl⟩
      simp [process_video_generation, hing]
    | ok scr =>
      cases hres : sora_result run with
      | error e' =>
        rw [hres] at herr
        injection herr with he
        subst he
        refine ⟨fail_update ((apply_callbacks (stage5 j) (sora_callbacks run)).getLastD
          (stage5 j)) e', ?_, rfl, rfl, rfl⟩
        simp [process_video_generation, hing, hres, getLast_cons_concat]
      | ok path =>
        rw [hres] at herr
        simp at herr

/-- Witness for C8: a parse failure inside the pipeline. -/
theorem pipeline_failure_spec_witness :
    pipeline_error "https://github.com/noslash" trivial_fetch (.ok "script")
        (.success [] "vid") = some "Invalid GitHub URL format" ∧
    ∃ jf, (process_video_generation (initial_job "job-3") "https://github.com/noslash"
        trivial_fetch (.ok "script") (.success [] "vid")).getLast? = some jf ∧
      jf.status = .failed ∧ jf.progress = 0 ∧
      jf.message = "Error: " ++ "Invalid GitHub URL format" :=
  ⟨by decide,
   pipeline_failure_spec (initial_job "job-3") "https://github.com/noslash" trivial_fetch
     (.ok "script") (.success [] "vid") "Invalid GitHub URL format" (by decide)⟩

/-! ## C1: progress monotonicity (corrected) -/

@[simp] theorem stage1_progress (j : Job) : (stage1 j).progress = 5 := rfl
@[simp] theorem stage2_progress (j : Job) : (stage2 j).progress = 15 := rfl
@[simp] theorem stage3_progress (j : Job) : (stage3 j).progress = 20 := rfl
@[simp] theorem stage4_progress (j : Job) : (stage4 j).progress = 25 := rfl
@[simp] theorem stage5_progress (j : Job) : (stage5 j).progress = 30 := rfl
@[simp] theorem stage1_status (j : Job) : (stage1 j).status = .processing := rfl
@[simp] theorem stage2_status (j : Job) : (stage2 j).status = .processing := rfl
@[simp] theorem stage3_status (j : Job) : (stage3 j).status = .processing := rfl
@[simp] theorem stage4_status (j : Job) : (stage4 j).status = .processing := rfl
@[simp] theorem stage5_status (j : Job) : (stage5 j).status = .processing := rfl
@[simp] theorem fail_update_status (j : Job) (e : String) :
    (fail_update j e).status = .failed := rfl
@[simp] theorem fail_update_progress (j : Job) (e : String) :
    (fail_update j e).progress = 0 := rfl
@[simp] theorem complete_update_status (j : Job) (path : String) :
    (complete_update j path).status = .completed := rfl
@[simp] theorem complete_update_progress (j : Job) (path : String) :
    (complete_update j path).progress = 100 := rfl
@[simp] theorem apply_sora_callback_status (j : Job) (p : Nat) (m : String) :
    (apply_sora_callback j p m).status = j.status := rfl
@[simp] theorem apply_sora_callback_progress (j : Job) (p : Nat) (m : String) :
    (apply_sora_callback j p m).progress = sora_progress_map p := rfl
@[simp] theorem sora_progress_map_zero : sora_progress_map 0 = 30 := rfl
@[simp] theorem sora_progress_map_five : sora_progress_map 5 = 33 := rfl
@[simp] theorem sora_progress_map_95 : sora_progress_map 95 = 91 := rfl
@[simp] theorem sora_progress_map_100 : sora_progress_map 100 = 95 := rfl

theorem apply_callbacks_status (cbs : List (Nat × String)) :
    ∀ (j : Job), ∀ s ∈ apply_callbacks j cbs, s.status = j.status := by
  induction cbs with
  | nil => intro j s hs; simp [apply_callbacks] at hs
  | cons c rest ih =>
    intro j s hs
    obtain ⟨p, m⟩ := c
    simp only [apply_callbacks, List.mem_cons] at hs
    rcases hs with rfl | hs
    · rfl
    · exact ih (apply_sora_callback j p m) s hs

theorem apply_callbacks_progress (cbs : List (Nat × String)) :
    ∀ (j : Job), (apply_callbacks j cbs).map Job.progress =
      cbs.map (fun c => sora_progress_map c.1) := by
  induction cbs with
  | nil => intro j; rfl
  | cons c rest ih =>
    intro j
    obtain ⟨p, m⟩ := c
    simp only [apply_callbacks, List.map_cons, apply_sora_callback_progress]
    rw [ih]

theorem chain_procMono_of_progress {l : List Job}
    (h : List.Chain' (· ≤ ·) (l.map Job.progress)) : List.Chain' procMono l := by
  rw [List.chain'_map] at h
  exact h.imp fun a b hab _ _ => hab

theorem mem_of_getLast_some {α : Type _} : ∀ {l : List α} {a : α}, l.getLast? = some a → a ∈ l
  | [], _, h => by simp at h
  | [x], a, h => by simp at h; simp [h]
  | x :: y :: t, a, h => by
    rw [List.getLast?_cons_cons] at h
    exact List.mem_cons_of_mem x (mem_of_getLast_some h)

theorem chain_cons_le_of_head {c : Nat} {l : List Nat}
    (h : List.Chain' (· ≤ ·) l) (hc : ∀ y, l.head? = some y → c ≤ y) :
    List.Chain' (· ≤ ·) (c :: l) := by
  cases l with
  | nil => exact List.chain'_singleton c
  | cons y t => exact List.chain'_cons.mpr ⟨hc y rfl, h⟩

theorem chain_le_append_last {l : List Nat} {c : Nat}
    (h : List.Chain' (· ≤ ·) l) (hb : ∀ x ∈ l, x ≤ c) :
    List.Chain' (· ≤ ·) (l ++ [c]) := by
  rw [List.chain'_append]
  refine ⟨h, List.chain'_singleton c, ?_⟩
  intro x hx y hy
  simp at hy
  subst hy
  exact hb x (mem_of_getLast_some hx)

theorem chain_cb_prefix (pvs suffix : List Nat)
    (hch : List.Chain' (· ≤ ·) pvs)
    (hb : ∀ p ∈ pvs, 5 ≤ p ∧ p ≤ 95)
    (hsuf : suffix = [] ∨ suffix = [91] ∨ suffix = [91, 95]) :
    List.Chain' (· ≤ ·)
      (5 :: 15 :: 20 :: 25 :: 30 :: 30 :: 33 :: (pvs.map sora_progress_map ++ suffix)) := by
  have hmap_chain : List.Chain' (· ≤ ·) (pvs.map sora_progress_map) := by
    rw [List.chain'_map]
    exact hch.imp fun a b hab => sora_progress_map_mono hab
  have hmap_le : ∀ x ∈ pvs.map sora_progress_map, x ≤ 91 := by
    intro x hx
    rw [List.mem_map] at hx
    obtain ⟨p, hp, rfl⟩ := hx
    exact le_trans (sora_progress_map_mono (hb p hp).2) (by decide)
  have htail : List.Chain' (· ≤ ·) (pvs.map sora_progress_map ++ suffix) := by
    rcases hsuf with rfl | rfl | rfl
    · simpa using hmap_chain
    · exact chain_le_append_last hmap_chain hmap_le
    · have h1 : List.Chain' (· ≤ ·) ((pvs.map sora_progress_map ++ [91]) ++ [95]) := by
        refine chain_le_append_last (chain_le_append_last hmap_chain hmap_le) ?_
        intro x hx
        rcases List.mem_append.mp hx with h | h
        · exact le_trans (hmap_le x h) (by decide)
        · simp at h; omega
      simpa [List.append_assoc] using h1
  have h33 : List.Chain' (· ≤ ·) (33 :: (pvs.map sora_progress_map ++ suffix)) := by
    refine chain_cons_le_of_head htail ?_
    intro y hy
    cases hpv : pvs with
    | nil =>
      subst hpv
      rcases hsuf with rfl | rfl | rfl <;> simp at hy <;> omega
    | cons p rest =>
      subst hpv
      rw [List.map_cons, List.cons_append, List.head?_cons] at hy
      injection hy with hy
      subst hy
      calc (33 : Nat) = sora_progress_map 5 := by decide
        _ ≤ sora_progress_map p := sora_progress_map_mono (hb p (List.mem_cons_self p rest)).1
  refine List.chain'_cons.mpr ⟨by norm_num, ?_⟩
  refine List.chain'_cons.mpr ⟨by norm_num, ?_⟩
  refine List.chain'_cons.mpr ⟨by norm_num, ?_⟩
  refine List.chain'_cons.mpr ⟨by norm_num, ?_⟩
  refine List.chain'_cons.mpr ⟨by norm_num, ?_⟩
  exact List.chain'_cons.mpr ⟨by norm_num, h33⟩

theorem cbmap_polls (polls : List (Bool × Nat)) :
    (polls.map (fun bp => (bp.2, poll_msg bp.1 bp.2))).map (fun c => sora_progress_map c.1) =
      (polls.map (·.2)).map sora_progress_map := by
  simp [List.map_map]

theorem sora_branch_chain (j : Job) (run : SoraRun)
    (hch : List.Chain' (· ≤ ·) (poll_values run))
    (hb : ∀ p ∈ poll_values run, 5 ≤ p ∧ p ≤ 95) :
    List.Chain' procMono
      ([stage1 j, stage2 j, stage3 j, stage4 j, stage5 j] ++
        apply_callbacks (stage5 j) (sora_callbacks run)) := by
  apply chain_procMono_of_progress
  rw [List.map_append, apply_callbacks_progress]
  cases run with
  | createError d =>
    simp only [sora_callbacks, List.map_cons, List.map_nil, stage1_progress, stage2_progress,
      stage3_progress, stage4_progress, stage5_progress, sora_progress_map_zero,
      List.cons_append, List.nil_append]
    refine List.chain'_cons.mpr ⟨by norm_num, ?_⟩
    refine List.chain'_cons.mpr ⟨by norm_num, ?_⟩
    refine List.chain'_cons.mpr ⟨by norm_num, ?_⟩
    refine List.chain'_cons.mpr ⟨by norm_num, ?_⟩
    exact List.chain'_cons.mpr ⟨by norm_num, List.chain'_singleton _⟩
  | soraFailed polls em =>
    simp only [poll_values] at hch hb
    have h := chain_cb_prefix (polls.map (·.2)) [] hch hb (Or.inl rfl)
    simp only [sora_callbacks, List.map_cons, List.map_nil, cbmap_polls, stage1_progress,
      stage2_progress, stage3_progress, stage4_progress, stage5_progress,
      sora_progress_map_zero, sora_progress_map_five, List.cons_append, List.nil_append]
    simpa using h
  | downloadError polls dd =>
    simp only [poll_values] at hch hb
    have h := chain_cb_prefix (polls.map (·.2)) [91] hch hb (Or.inr (Or.inl rfl))
    simp only [sora_callbacks, List.map_cons, List.map_nil, List.map_append, cbmap_polls,
      stage1_progress, stage2_progress, stage3_progress, stage4_progress, stage5_progress,
      sora_progress_map_zero, sora_progress_map_five, sora_progress_map_95,
      List.cons_append, List.nil_append]
    simpa using h
  | success polls vid =>
    simp only [poll_values] at hch hb
    have h := chain_cb_prefix (polls.map (·.2)) [91, 95] hch hb (Or.inr (Or.inr rfl))
    simp only [sora_callbacks, List.map_cons, List.map_nil, List.map_append, cbmap_polls,
      stage1_progress, stage2_progress, stage3_progress, stage4_progress, stage5_progress,
      sora_progress_map_zero, sora_progress_map_five, sora_progress_map_95,
      sora_progress_map_100, List.cons_append, List.nil_append]
    simpa using h

theorem chain_procMono_append_final {A : List Job} {f : Job}
    (hA : List.Chain' procMono A) (hf : f.status ≠ .processing) :
    List.Chain' procMono (A ++ [f]) := by
  rw [List.chain'_append]
  refine ⟨hA, List.chain'_singleton f, ?_⟩
  intro x _ y hy
  simp at hy
  subst hy
  exact fun _ hys => absurd hys hf

theorem trace_chain (j : Job) (repo_url : String) (fr : FetchResults)
    (script : Except String String) (run : SoraRun)
    (hch : List.Chain' (· ≤ ·) (poll_values run))
    (hb : ∀ p ∈ poll_values run, 5 ≤ p ∧ p ≤ 95) :
    List.Chain' procMono (process_video_generation j repo_url fr script run) := by
  cases hing : ingest_repository repo_url fr with
  | error e =>
    simp only [process_video_generation, hing]
    refine List.chain'_cons.mpr ⟨?_, List.chain'_singleton _⟩
    intro _ hf
    simp at hf
  | ok rd =>
    cases script with
    | error e =>
      simp only [process_video_generation, hing]
      refine List.chain'_cons.mpr ⟨?_, List.chain'_cons.mpr ⟨?_,
        List.chain'_cons.mpr ⟨?_, List.chain'_singleton _⟩⟩⟩
      · intro _ _; simp only [stage1_progress, stage2_progress]; omega
      · intro _ _; simp only [stage2_progress, stage3_progress]; omega
      · intro _ hf; simp at hf
    | ok scr =>
      cases hres : sora_result run with
      | error e =>
        simp only [process_video_generation, hing, hres]
        exact chain_procMono_append_final (sora_branch_chain j run hch hb) (by simp)
      | ok path =>
        simp only [process_video_generation, hing, hres]
        exact chain_procMono_append_final (sora_branch_chain j run hch hb) (by simp)

theorem trace_failed_progress (j : Job) (repo_url : String) (fr : FetchResults)
    (script : Except String String) (run : SoraRun) :
    ∀ s ∈ process_video_generation j repo_url fr script run,
      s.status = .failed → s.progress = 0 := by
  intro s hs hfail
  cases hing : ingest_repository repo_url fr with
  | error e =>
    simp only [process_video_generation, hing, List.mem_cons, List.not_mem_nil, or_false] at hs
    rcases hs with rfl | rfl
    · simp at hfail
    · rfl
  | ok rd =>
    cases script with
    | error e =>
      simp only [process_video_generation, hing, List.mem_cons, List.not_mem_nil, or_false] at hs
      rcases hs with rfl | rfl | rfl | rfl
      · simp at hfail
      · simp at hfail
      · simp at hfail
      · rfl
    | ok scr =>
      cases hres : sora_result run with
      | error e =>
        simp only [process_video_generation, hing, hres, List.mem_append, List.mem_cons,
          List.not_mem_nil, or_false] at hs
        rcases hs with ((rfl | rfl | rfl | rfl | rfl) | hcb) | rfl
        · simp at hfail
        · simp at hfail
        · simp at hfail
        · simp at hfail
        · simp at hfail
        · have hst := apply_callbacks_status (sora_callbacks run) (stage5 j) s hcb
          simp only [stage5_status] at hst
          simp [hst] at hfail
        · rfl
      | ok path =>
        simp only [process_video_generation, hing, hres, List.mem_append, List.mem_cons,
          List.not_mem_nil, or_false] at hs
        rcases hs with ((rfl | rfl | rfl | rfl | rfl) | hcb) | rfl
        · simp at hfail
        · simp at hfail
        · simp at hfail
        · simp at hfail
        · simp at hfail
        · have hst := apply_callbacks_status (sora_callbacks run) (stage5 j) s hcb
          simp only [stage5_status] at hst
          simp [hst] at hfail
        · simp at hfail

theorem trace_completed_progress (j : Job) (repo_url : String) (fr : FetchResults)
    (script : Except String String) (run : SoraRun) :
    ∀ s ∈ process_video_generation j repo_url fr script run,
      s.status = .completed → s.progress = 100 := by
  intro s hs hdone
  cases hing : ingest_repository repo_url fr with
  | error e =>
    simp only [process_video_generation, hing, List.mem_cons, List.not_mem_nil, or_false] at hs
    rcases hs with rfl | rfl
    · simp at hdone
    · simp at hdone
  | ok rd =>
    cases script with
    | error e =>
      simp only [process_video_generation, hing, List.mem_cons, List.not_mem_nil, or_false] at hs
      rcases hs with rfl | rfl | rfl | rfl
      · simp at hdone
      · simp at hdone
      · simp at hdone
      · simp at hdone
    | ok scr =>
      cases hres : sora_result run with
      | error e =>
        simp only [process_video_generation, hing, hres, List.mem_append, List.mem_cons,
          List.not_mem_nil, or_false] at hs
        rcases hs with ((rfl | rfl | rfl | rfl | rfl) | hcb) | rfl
        · simp at hdone
        · simp at hdone
        · simp at hdone
        · simp at hdone
        · simp at hdone
        · have hst := apply_callbacks_status (sora_callbacks run) (stage5 j) s hcb
          simp only [stage5_status] at hst
          simp [hst] at hdone
        · simp at hdone
      | ok path =>
        simp only [process_video_generation, hing, hres, List.mem_append, List.mem_cons,
          List.not_mem_nil, or_false] at hs
        rcases hs with ((rfl | rfl | rfl | rfl | rfl) | hcb) | rfl
        · simp at hdone
        · simp at hdone
        · simp at hdone
        · simp at hdone
        · simp at hdone
        · have hst := apply_callbacks_status (sora_callbacks run) (stage5 j) s hcb
          simp only [stage5_status] at hst
          simp [hst] at hdone
        · rfl

/-- C1 counterexample: with provider poll progress reaching 100, the poll
update maps to 95, and the subsequent hardcoded download-phase callback
`progress_callback(95, "Downloading video...")` maps back to 91 — the
displayed progress decreases from 95 to 91 between two adjacent states
whose status is still Processing, refuting the claimed invariant on the
concrete run shown (the pipeline's own update sequence causes the
regression even though the provider's progress was non-decreasing). -/
theorem progress_regression_counterexample :
    (process_video_generation (initial_job "job-1") "https://github.com/o/r" trivial_fetch
        (.ok "script") (.success [(false, 100)] "vid")).map (fun s => (s.status, s.progress)) =
      [(.processing, 5), (.processing, 15), (.processing, 20), (.processing, 25),
       (.processing, 30), (.processing, 30), (.processing, 33), (.processing, 95),
       (.processing, 91), (.processing, 95), (.completed, 100)] ∧
    ¬ List.Chain' procMono (process_video_generation (initial_job "job-1")
        "https://github.com/o/r" trivial_fetch (.ok "script") (.success [(false, 100)] "vid")) := by
  refine ⟨by decide, fun h => ?_⟩
  rw [List.chain'_iff_get] at h
  have h78 := h 7 (by decide)
  exact absurd (h78 rfl rfl) (by decide)

/-- C1 amended: along every pipeline run, displayed progress is monotone
non-decreasing between consecutive states that are both Processing,
provided the provider's poll-reported progress values are non-decreasing
and stay within `[5, 95]` (outside that band the fixed queued-phase update
to 33 or the download-phase update to 91 can regress it, as the
counterexample shows); progress is 0 on every Failed state and 100 on
every Completed state, unconditionally. -/
theorem progress_monotone_amended (j : Job) (repo_url : String) (fr : FetchResults)
    (script : Except String String) (run : SoraRun)
    (hch : List.Chain' (· ≤ ·) (poll_values run))
    (hb : ∀ p ∈ poll_values run, 5 ≤ p ∧ p ≤ 95) :
    List.Chain' procMono (process_video_generation j repo_url fr script run) ∧
    (∀ s ∈ process_video_generation j repo_url fr script run,
      s.status = .failed → s.progress = 0) ∧
    (∀ s ∈ process_video_generation j repo_url fr script run,
      s.status = .completed → s.progress = 100) :=
  ⟨trace_chain j repo_url fr script run hch hb,
   trace_failed_progress j repo_url fr script run,
   trace_completed_progress j repo_url fr script run⟩

/-- Witness for C1's amended claim: a concrete run with non-decreasing
poll progress 10, 50 inside the band. -/
theorem progress_monotone_amended_witness :
    List.Chain' procMono (process_video_generation (initial_job "job-1")
      "https://github.com/o/r" trivial_fetch (.ok "script")
      (.success [(false, 10), (false, 50)] "vid")) :=
  (progress_monotone_amended (initial_job "job-1") "https://github.com/o/r" trivial_fetch
    (.ok "script") (.success [(false, 10), (false, 50)] "vid")
    (show List.Chain' (· ≤ ·) [10, 50] from
      List.chain'_cons.mpr ⟨by norm_num, List.chain'_singleton _⟩)
    (by decide)).1
